import Mathlib

/-!
Shallow embedding of the coordinate-parsing and query layer of
`backend/main.py` (plantTracker).

Python values are modelled as follows: `float` becomes `ℚ` (exact
arithmetic; the claims' example values are exactly representable),
Python `int` becomes `Int`, Python `None`/`Optional` becomes `Option`,
and the dynamically typed argument of `parse_coords` becomes `PyVal`
(a string, or anything that is not a string, such as a pandas NaN cell).
-/

namespace PlantTracker

/-- Python whitespace for `str.strip` / `str.split` / regex `\s`
(restricted to the ASCII whitespace characters). -/
def pyIsSpace (c : Char) : Bool :=
  c = ' ' || c = '\t' || c = '\n' || c = '\r' || c = '\x0b' || c = '\x0c'

/-- ASCII decimal digit, the model of regex `\d`. -/
def isDigitCh (c : Char) : Bool :=
  '0' ≤ c && c ≤ '9'

/-- Characters allowed in the degree separator class `[°\s]`. -/
def isDegSep (c : Char) : Bool :=
  c = '°' || pyIsSpace c

/-- Characters allowed in the minute separator class `[’'\s]`. -/
def isMinSep (c : Char) : Bool :=
  c = '’' || c = '\'' || pyIsSpace c

/-- Characters of the seconds group class `[\d.]`. -/
def isDotDigit (c : Char) : Bool :=
  isDigitCh c || c = '.'

/-- The optional seconds mark class `[\"”]`. -/
def isQuoteMark (c : Char) : Bool :=
  c = '"' || c = '”'

/-- Hemisphere letters `[NSEW]` under `re.IGNORECASE`. -/
def isHemi (c : Char) : Bool :=
  c = 'N' || c = 'S' || c = 'E' || c = 'W' ||
  c = 'n' || c = 's' || c = 'e' || c = 'w'

/-- Python `str.strip()`: drop leading and trailing whitespace. -/
def pyStrip (l : List Char) : List Char :=
  ((l.dropWhile pyIsSpace).reverse.dropWhile pyIsSpace).reverse

/-- Helper for `pySplit`, accumulating the current word in reverse. -/
def pySplitAux : List Char → List Char → List (List Char)
  | [], acc => if acc.isEmpty then [] else [acc.reverse]
  | c :: cs, acc =>
    if pyIsSpace c then
      if acc.isEmpty then pySplitAux cs [] else acc.reverse :: pySplitAux cs []
    else
      pySplitAux cs (c :: acc)

/-- Python `str.split()` with no argument: split on whitespace runs,
never producing empty tokens. -/
def pySplit (l : List Char) : List (List Char) :=
  pySplitAux l []

/-- The captured groups of the DMS regex
`(\d+)[°\s]+(\d+)[’'\s]+([\d.]+)[\"”]?\s*([NSEW])?`:
degree digits, minute digits, the seconds `[\d.]+` text, and the
optional hemisphere letter. -/
structure DMSGroups where
  deg : List Char
  minutes : List Char
  seconds : List Char
  hemi : Option Char
deriving DecidableEq, Repr

/-- `re.match` of the pattern
`(\d+)[°\s]+(\d+)[’'\s]+([\d.]+)[\"”]?\s*([NSEW])?` with `re.IGNORECASE`
(anchored at the start, prefix match, trailing input ignored).

Because each quantified class is disjoint from the class that must follow
it, Python's greedy backtracking engine is equivalent to this
deterministic maximal-munch matcher: every group takes its maximal run,
and the trailing quote, whitespace and hemisphere parts are optional so
they never force backtracking into the seconds group. -/
def dmsMatch (l : List Char) : Option DMSGroups :=
  let g1 := l.takeWhile isDigitCh
  let r1 := l.dropWhile isDigitCh
  if g1.isEmpty then none else
  let s1 := r1.takeWhile isDegSep
  let r2 := r1.dropWhile isDegSep
  if s1.isEmpty then none else
  let g2 := r2.takeWhile isDigitCh
  let r3 := r2.dropWhile isDigitCh
  if g2.isEmpty then none else
  let s2 := r3.takeWhile isMinSep
  let r4 := r3.dropWhile isMinSep
  if s2.isEmpty then none else
  let g3 := r4.takeWhile isDotDigit
  let r5 := r4.dropWhile isDotDigit
  if g3.isEmpty then none else
  let r6 := match r5 with
    | c :: rest => if isQuoteMark c then rest else r5
    | [] => []
  let r7 := r6.dropWhile pyIsSpace
  let hemi := match r7 with
    | c :: _ => if isHemi c then some c else none
    | [] => none
  some ⟨g1, g2, g3, hemi⟩

/-- Numeric value of a list of decimal digits. -/
def digitsToNat (l : List Char) : Nat :=
  l.foldl (fun a c => a * 10 + (c.toNat - '0'.toNat)) 0

/-- Python `float()` restricted to the strings the seconds group `[\d.]+`
can produce (digits and dots): it succeeds exactly when the text has at
most one dot and at least one digit. -/
def pyFloat (l : List Char) : Option ℚ :=
  match l.splitOn '.' with
  | [d] => if d.isEmpty then none else some (digitsToNat d : ℚ)
  | [i, f] =>
    if i.isEmpty && f.isEmpty then none
    else some ((digitsToNat i : ℚ) + (digitsToNat f : ℚ) / (10 : ℚ) ^ f.length)
  | _ => none

/-- `dms_to_decimal(dms, fallback_hemi)` from `backend/main.py` lines
144–162: match the DMS regex against the stripped input, convert the
groups to numbers, combine as `deg + minutes/60 + seconds/3600`, default
the hemisphere to `fallback_hemi` when none was captured, and negate for
S or W (case-insensitively, via `.upper()`). -/
def dms_to_decimal (dms : List Char) (fallback_hemi : Char) : Option ℚ :=
  match dmsMatch (pyStrip dms) with
  | none => none
  | some g =>
    match pyFloat g.seconds with
    | none => none
    | some seconds =>
      let deg : ℚ := (digitsToNat g.deg : ℚ)
      let minutes : ℚ := (digitsToNat g.minutes : ℚ)
      let dec := deg + minutes / 60 + seconds / 3600
      let hemi := (g.hemi.getD fallback_hemi).toUpper
      some (if hemi = 'S' ∨ hemi = 'W' then -dec else dec)

/-- The dynamically typed argument of `parse_coords`: a Python string, or
any non-string value (e.g. the float NaN pandas yields for an empty CSV
cell). -/
inductive PyVal where
  | str (s : String)
  | nonstr
deriving DecidableEq

/-- The `{"lat": .., "lng": ..}` dictionary `parse_coords` returns. -/
structure Coords where
  lat : ℚ
  lng : ℚ
deriving DecidableEq, Repr

/-- `parse_coords(raw)` from `backend/main.py` lines 165–189: reject
non-strings, strip and whitespace-split the input, take the first token
as the latitude component and the space-rejoined remainder as the
longitude component, convert each with `dms_to_decimal` (defaults N
resp. W), and validate the ranges `[-90, 90]` and `[-180, 180]`. -/
def parse_coords (raw : PyVal) : Option Coords :=
  match raw with
  | .nonstr => none
  | .str s =>
    let parts := pySplit (pyStrip s.data)
    match parts with
    | [] => none
    | [_] => none
    | latPart :: rest =>
      let lngPart := List.intercalate [' '] rest
      match dms_to_decimal latPart 'N', dms_to_decimal lngPart 'W' with
      | some lat, some lng =>
        if -90 ≤ lat ∧ lat ≤ 90 ∧ -180 ≤ lng ∧ lng ≤ 180 then
          some ⟨lat, lng⟩
        else none
      | _, _ => none

/-- The coordinate-derivation step of `load_and_clean_collection_csv`
(`backend/main.py` lines 111–113): the `Latitude` and `Longitude` columns
a row gets from its raw `Cords` cell (`c["lat"] if c else None`). -/
def normalizeCoords (cords : PyVal) : Option ℚ × Option ℚ :=
  let c := parse_coords cords
  (Option.map Coords.lat c, Option.map Coords.lng c)

/-- A stored `CollectionData` row, restricted to the fields the verified
claims mention: the collection code, the raw `Cords` text, and the stored
derived coordinates. -/
structure DBRecord where
  code : String
  Cords : PyVal
  Latitude : Option ℚ
  Longitude : Option ℚ
deriving DecidableEq

/-- Modelled from the spec: the SQL text of `get_collection_with_species`
lives in `data/query_database.txt`, which is not under `src/`; per spec
§4.3 it is the point lookup of one collection row by collection code
(the species left join adds fields none of the claims mention). -/
def get_collection_with_species (store : List DBRecord) (code : String) :
    Option DBRecord :=
  store.find? (fun r => r.code = code)

/-- `get_collection_info(collectionID)` from `backend/main.py` lines
263–280, with the database passed as explicit state: look the row up
(404 when absent), and when the stored `Latitude` or `Longitude` is null,
backfill both from `parse_coords` of the stored `Cords` text. The handler
only reads, so the state comes back unchanged. -/
def get_collection_info (store : List DBRecord) (collectionID : String) :
    Except Nat DBRecord × List DBRecord :=
  match get_collection_with_species store collectionID with
  | none => (.error 404, store)
  | some res =>
    if res.Latitude = none ∨ res.Longitude = none then
      let coords := parse_coords res.Cords
      (.ok { res with Latitude := Option.map Coords.lat coords,
                      Longitude := Option.map Coords.lng coords }, store)
    else (.ok res, store)

/-- Modelled from the spec: the SQL of the bounding-box queries lives in
`data/query_collections_count.txt` and `data/query_collections_list.txt`,
not under `src/`; per spec §4.3 a row matches when its derived latitude
and longitude are both non-null and within the inclusive bounds. -/
def inBBox (minLat maxLat minLng maxLng : ℚ) (r : DBRecord) : Bool :=
  match r.Latitude, r.Longitude with
  | some la, some ln =>
    decide (minLat ≤ la ∧ la ≤ maxLat ∧ minLng ≤ ln ∧ ln ≤ maxLng)
  | _, _ => false

/-- The JSON page `list_collections` returns: items, total, and the
(possibly clamped) limit and offset. -/
structure Page where
  items : List DBRecord
  total : Nat
  limit : Int
  offset : Int
deriving DecidableEq

/-- `list_collections(minLat, maxLat, minLng, maxLng, limit, offset)` from
`backend/main.py` lines 286–337: validate the bounds (HTTP 400 on
violation, before touching the store), clamp `limit` to `[1, 1000]` and
`offset` to `≥ 0`, and page through the rows inside the bounding box
(the count and slice are the two modelled SQL queries). -/
def list_collections (store : List DBRecord) (minLat maxLat minLng maxLng : ℚ)
    (limit offset : Int) : Except Nat Page :=
  if ¬(-90 ≤ minLat ∧ minLat ≤ 90 ∧ -90 ≤ maxLat ∧ maxLat ≤ 90) then
    .error 400
  else if ¬(-180 ≤ minLng ∧ minLng ≤ 180 ∧ -180 ≤ maxLng ∧ maxLng ≤ 180) then
    .error 400
  else if minLat > maxLat ∨ minLng > maxLng then
    .error 400
  else
    let limit := max 1 (min limit 1000)
    let offset := max 0 offset
    let matched := store.filter (inBBox minLat maxLat minLng maxLng)
    let total := matched.length
    let items := (matched.drop offset.toNat).take limit.toNat
    .ok ⟨items, total, limit, offset⟩

/-- The joint validity of a derived coordinate pair: latitude in
`[-90, 90]` and longitude in `[-180, 180]`. -/
def validLatLng (a b : ℚ) : Prop :=
  -90 ≤ a ∧ a ≤ 90 ∧ -180 ≤ b ∧ b ≤ 180

/-- The spec's §3 invariant on a derived coordinate pair: both present
and jointly valid, or both absent. -/
def latlngInvariant : Option ℚ → Option ℚ → Prop
  | some a, some b => validLatLng a b
  | none, none => True
  | _, _ => False

/-- The validity precondition of the bounding-box parameters: each bound
in its range, and min ≤ max on both axes. -/
def validBounds (minLat maxLat minLng maxLng : ℚ) : Prop :=
  (-90 ≤ minLat ∧ minLat ≤ 90 ∧ -90 ≤ maxLat ∧ maxLat ≤ 90) ∧
  (-180 ≤ minLng ∧ minLng ≤ 180 ∧ -180 ≤ maxLng ∧ maxLng ≤ 180) ∧
  minLat ≤ maxLat ∧ minLng ≤ maxLng

/-- Whenever `parse_coords` succeeds, the returned pair passed the final
range validation of `backend/main.py` line 186. -/
theorem parse_coords_valid (v : PyVal) (c : Coords)
    (h : parse_coords v = some c) : validLatLng c.lat c.lng := by
  cases v with
  | nonstr => simp [parse_coords] at h
  | str s =>
    simp only [parse_coords] at h
    split at h
    · exact absurd h (by simp)
    · exact absurd h (by simp)
    · split at h
      · split at h
        · cases h
          exact ‹_ ∧ _ ∧ _ ∧ _›
        · exact absurd h (by simp)
      · exact absurd h (by simp)

/-- C1, counterexample: on the spec's own example string
`"41° 30' 0.0\" N 93° 30' 0.0\" W"` the parser returns absent, not
`{lat: 41.5, lng: -93.5}` — the whitespace split hands only the first
token `41°` to the latitude side, where the DMS pattern cannot match. -/
theorem claim1_spec_example_is_absent :
    parse_coords (.str "41° 30' 0.0\" N 93° 30' 0.0\" W") = none := by
  decide

/-- C1, amended: with explicit hemisphere letters `parse_coords` returns
the expected signed decimal degrees (exactly, here 41.5 = 83/2 and
-93.5 = -187/2), provided the latitude component is written as a single
whitespace-free token; the longitude component, being rejoined from the
remaining tokens, does tolerate interior whitespace around the symbols,
and S/E hemisphere letters give the expected signs. -/
theorem claim1_hemisphere_letters_signed_decimal :
    parse_coords (.str "41°30'0.0\"N 93° 30' 0.0\" W") =
      some ⟨83 / 2, -187 / 2⟩ ∧
    parse_coords (.str "41°30'0.0\"S 93°30'0.0\"E") =
      some ⟨-(83 / 2), 187 / 2⟩ := by
  constructor <;>
    simp +decide [parse_coords, pySplit, pySplitAux, pyStrip, pyIsSpace,
      dms_to_decimal, dmsMatch, isDigitCh, isDegSep, isMinSep, isDotDigit,
      isQuoteMark, isHemi, pyFloat, digitsToNat, List.intercalate,
      List.splitOn, List.splitOnP, List.splitOnP.go] <;>
    norm_num

/-- C2, counterexample: on the spec's example `"41 30 0.0 93 30 0.0"`
(no hemisphere letters, space-separated) the parser returns absent, not
`{lat: 41.5, lng: -93.5}`: the latitude side only receives the token
`41`, in which the pattern finds no minutes group. -/
theorem claim2_spec_example_is_absent :
    parse_coords (.str "41 30 0.0 93 30 0.0") = none := by
  decide

/-- C2, amended: when the hemisphere letters are missing the parser does
default the latitude to N and the longitude to W (so `41.5` and `-93.5`
here), but only when the latitude component is a single whitespace-free
token; the longitude component may stay space-separated. -/
theorem claim2_missing_hemisphere_defaults :
    parse_coords (.str "41°30'0.0 93 30 0.0") = some ⟨83 / 2, -187 / 2⟩ := by
  simp +decide [parse_coords, pySplit, pySplitAux, pyStrip, pyIsSpace,
    dms_to_decimal, dmsMatch, isDigitCh, isDegSep, isMinSep, isDotDigit,
    isQuoteMark, isHemi, pyFloat, digitsToNat, List.intercalate,
    List.splitOn, List.splitOnP, List.splitOnP.go]
  norm_num

/-- C10: a non-string input (e.g. the NaN a missing CSV coordinate cell
becomes) makes `parse_coords` return absent rather than raise, and the
normalizer accordingly derives null for both coordinate columns. -/
theorem claim10_nonstring_input_absent :
    parse_coords PyVal.nonstr = none ∧
    normalizeCoords PyVal.nonstr = (none, none) :=
  ⟨rfl, rfl⟩

/-- C3: whenever the DMS pattern matches a component with degree digits,
minute digits, a seconds group whose numeric parse yields `sec`, and an
optional hemisphere letter, `dms_to_decimal` returns
`deg + min/60 + sec/3600`, negated exactly when the captured hemisphere
letter — or, when none was captured, the component-specific fallback
passed in (N for latitude, W for longitude) — upcases to S or W. -/
theorem claim3_dms_to_decimal_formula (dms : List Char) (fb : Char)
    (g : DMSGroups) (sec : ℚ)
    (h1 : dmsMatch (pyStrip dms) = some g)
    (h2 : pyFloat g.seconds = some sec) :
    dms_to_decimal dms fb =
      some (if (g.hemi.getD fb).toUpper = 'S' ∨ (g.hemi.getD fb).toUpper = 'W'
            then -((digitsToNat g.deg : ℚ) + (digitsToNat g.minutes : ℚ) / 60
                    + sec / 3600)
            else (digitsToNat g.deg : ℚ) + (digitsToNat g.minutes : ℚ) / 60
                    + sec / 3600) := by
  simp only [dms_to_decimal, h1, h2]

/-- C3, witness: the theorem applied to the concrete component
`41°30'0.0"S` with fallback N: the captured S hemisphere negates
41 + 30/60 + 0/3600 to -41.5. -/
theorem claim3_dms_to_decimal_formula_witness :
    dms_to_decimal ("41°30'0.0\"S".data) 'N' = some (-(83 / 2) : ℚ) := by
  rw [claim3_dms_to_decimal_formula ("41°30'0.0\"S".data) 'N'
        ⟨"41".data, "30".data, "0.0".data, some 'S'⟩ 0 (by decide)
        (by simp +decide [pyFloat, List.splitOn, List.splitOnP,
              List.splitOnP.go, digitsToNat])]
  simp +decide [digitsToNat, List.foldl]
  norm_num

/-- C5: when both components convert to decimals but the pair violates
the range validation (latitude outside [-90, 90] or longitude outside
[-180, 180]), `parse_coords` returns absent as a whole — never a partial
one-coordinate result. -/
theorem claim5_out_of_range_is_absent (s : String) (p0 : List Char)
    (rest : List (List Char)) (lat lng : ℚ)
    (hsplit : pySplit (pyStrip s.data) = p0 :: rest)
    (hlat : dms_to_decimal p0 'N' = some lat)
    (hlng : dms_to_decimal (List.intercalate [' '] rest) 'W' = some lng)
    (hout : ¬(-90 ≤ lat ∧ lat ≤ 90 ∧ -180 ≤ lng ∧ lng ≤ 180)) :
    parse_coords (.str s) = none := by
  cases rest with
  | nil => simp [parse_coords, hsplit]
  | cons r rs =>
    simp only [parse_coords, hsplit, hlat, hlng]
    exact if_neg hout

/-- C5, witness: `95°0'0.0"N 10°0'0.0"W` matches numerically but the
latitude 95 exceeds 90, so the whole parse is absent. -/
theorem claim5_out_of_range_is_absent_witness :
    parse_coords (.str "95°0'0.0\"N 10°0'0.0\"W") = none := by
  apply claim5_out_of_range_is_absent _ ("95°0'0.0\"N".data)
      ["10°0'0.0\"W".data] 95 (-10)
  · decide
  · simp +decide [dms_to_decimal, dmsMatch, pyStrip, pyIsSpace, isDigitCh,
      isDegSep, isMinSep, isDotDigit, isQuoteMark, isHemi, pyFloat,
      digitsToNat, List.splitOn, List.splitOnP, List.splitOnP.go]
  · simp +decide [dms_to_decimal, dmsMatch, pyStrip, pyIsSpace, isDigitCh,
      isDegSep, isMinSep, isDotDigit, isQuoteMark, isHemi, pyFloat,
      digitsToNat, List.splitOn, List.splitOnP, List.splitOnP.go,
      List.intercalate]
  · norm_num

/-- C6: inputs that do not split into at least two whitespace tokens, and
inputs where the latitude or the longitude component fails to convert,
make `parse_coords` return absent (it is a total function — no exception
is modelled or needed); in particular `"not a coordinate"` and `""` are
absent. -/
theorem claim6_unparseable_input_absent :
    (∀ s : String, (pySplit (pyStrip s.data)).length < 2 →
      parse_coords (.str s) = none) ∧
    (∀ (s : String) (p0 : List Char) (rest : List (List Char)),
      pySplit (pyStrip s.data) = p0 :: rest →
      dms_to_decimal p0 'N' = none ∨
        dms_to_decimal (List.intercalate [' '] rest) 'W' = none →
      parse_coords (.str s) = none) ∧
    parse_coords (.str "not a coordinate") = none ∧
    parse_coords (.str "") = none := by
  refine ⟨?_, ?_, by decide, by decide⟩
  · intro s hl
    simp only [parse_coords]
    cases hp : pySplit (pyStrip s.data) with
    | nil => rfl
    | cons a t =>
      cases t with
      | nil => rfl
      | cons b u =>
        rw [hp] at hl
        simp only [List.length_cons] at hl
        exact absurd hl (by omega)
  · intro s p0 rest hsplit hfail
    cases rest with
    | nil => simp [parse_coords, hsplit]
    | cons r rs =>
      rcases hfail with h | h <;>
        cases hd : dms_to_decimal p0 'N' <;>
          simp_all [parse_coords, hsplit]

/-- C6, witness: the theorem's first clause applied to the one-token
input `"xyz"`. -/
theorem claim6_unparseable_input_absent_witness :
    parse_coords (.str "xyz") = none :=
  claim6_unparseable_input_absent.1 "xyz" (by decide)

/-- Unfolding `get_collection_info` when the lookup misses: HTTP 404 and
the store untouched. -/
theorem get_collection_info_notfound (store : List DBRecord) (cid : String)
    (hf : get_collection_with_species store cid = none) :
    get_collection_info store cid = (.error 404, store) := by
  unfold get_collection_info
  rw [hf]

/-- Unfolding `get_collection_info` when the lookup hits: the backfill
branch is taken exactly when a stored coordinate is null. -/
theorem get_collection_info_found (store : List DBRecord) (cid : String)
    (res : DBRecord)
    (hf : get_collection_with_species store cid = some res) :
    get_collection_info store cid =
      if res.Latitude = none ∨ res.Longitude = none then
        (.ok { res with
            Latitude := Option.map Coords.lat (parse_coords res.Cords),
            Longitude := Option.map Coords.lng (parse_coords res.Cords) },
          store)
      else (.ok res, store) := by
  unfold get_collection_info
  rw [hf]

/-- C4: the coordinate pair a row gets from normalization is either both
present and jointly valid or both absent, and the record returned by the
collection lookup — including after the lazy backfill — keeps that
invariant whenever every stored record's present coordinate pairs are
jointly valid. -/
theorem claim4_latlng_both_or_neither :
    (∀ cell : PyVal,
      latlngInvariant (normalizeCoords cell).1 (normalizeCoords cell).2) ∧
    (∀ (store : List DBRecord) (cid : String) (r : DBRecord),
      (∀ rec ∈ store, ∀ a b, rec.Latitude = some a →
        rec.Longitude = some b → validLatLng a b) →
      (get_collection_info store cid).1 = .ok r →
      latlngInvariant r.Latitude r.Longitude) := by
  constructor
  · intro cell
    cases hc : parse_coords cell with
    | none => simp [normalizeCoords, hc, latlngInvariant]
    | some c =>
      simpa [normalizeCoords, hc, latlngInvariant] using
        parse_coords_valid cell c hc
  · intro store cid r hstore hok
    cases hf : get_collection_with_species store cid with
    | none =>
      rw [get_collection_info_notfound store cid hf] at hok
      exact Except.noConfusion hok
    | some res =>
      rw [get_collection_info_found store cid res hf] at hok
      by_cases hmiss : res.Latitude = none ∨ res.Longitude = none
      · rw [if_pos hmiss] at hok
        have hok' : Except.ok { res with
            Latitude := Option.map Coords.lat (parse_coords res.Cords),
            Longitude := Option.map Coords.lng (parse_coords res.Cords) } =
            Except.ok r := hok
        injection hok' with hr
        subst hr
        cases hc : parse_coords res.Cords with
        | none => simp [hc, latlngInvariant]
        | some c =>
          simpa [hc, latlngInvariant] using parse_coords_valid res.Cords c hc
      · rw [if_neg hmiss] at hok
        have hok' : Except.ok res = Except.ok r := hok
        injection hok' with hr
        subst hr
        push_neg at hmiss
        obtain ⟨hla, hlb⟩ := hmiss
        cases ha : res.Latitude with
        | none => exact absurd ha hla
        | some a =>
          cases hb : res.Longitude with
          | none => exact absurd hb hlb
          | some b =>
            have hmem : res ∈ store := by
              have hf' : store.find? (fun rr => rr.code = cid) = some res := hf
              exact List.mem_of_find?_eq_some hf'
            simpa [ha, hb, latlngInvariant] using hstore res hmem a b ha hb

/-- C4, witness: the normalization clause at a raw cell that parses to
nothing, and the lookup clause at a one-record store whose stored
coordinates are null (the backfill also fails, so both stay absent). -/
theorem claim4_latlng_both_or_neither_witness :
    latlngInvariant (normalizeCoords (.str "41 30 0.0 93 30 0.0")).1
      (normalizeCoords (.str "41 30 0.0 93 30 0.0")).2 ∧
    latlngInvariant (DBRecord.mk "c1" (.str "") none none).Latitude
      (DBRecord.mk "c1" (.str "") none none).Longitude :=
  ⟨claim4_latlng_both_or_neither.1 _,
   claim4_latlng_both_or_neither.2 [⟨"c1", .str "", none, none⟩] "c1"
     ⟨"c1", .str "", none, none⟩
     (by
       intro rec hrec a b ha hb
       simp only [List.mem_singleton] at hrec
       subst hrec
       cases ha)
     rfl⟩

/-- C9: when the stored record's latitude or longitude is null, the
lookup handler returns the record with both coordinates re-derived by
`parse_coords` from the stored raw `Cords` text, and the store itself
comes back unchanged — the derived values are never persisted. -/
theorem claim9_backfill_readonly (store : List DBRecord) (cid : String)
    (r : DBRecord)
    (hfind : get_collection_with_species store cid = some r)
    (hmiss : r.Latitude = none ∨ r.Longitude = none) :
    get_collection_info store cid =
      (.ok { r with
          Latitude := Option.map Coords.lat (parse_coords r.Cords),
          Longitude := Option.map Coords.lng (parse_coords r.Cords) },
        store) := by
  unfold get_collection_info
  rw [hfind]
  exact if_pos hmiss

/-- C9, witness: a one-record store with null stored coordinates; the
response carries the freshly parsed coordinates and the store is
returned as it was. -/
theorem claim9_backfill_readonly_witness :
    get_collection_info
      [⟨"a1", .str "41°30'0.0\"N 93°30'0.0\"W", none, none⟩] "a1" =
      (.ok { (⟨"a1", .str "41°30'0.0\"N 93°30'0.0\"W", none, none⟩ : DBRecord) with
          Latitude := Option.map Coords.lat
            (parse_coords (.str "41°30'0.0\"N 93°30'0.0\"W")),
          Longitude := Option.map Coords.lng
            (parse_coords (.str "41°30'0.0\"N 93°30'0.0\"W")) },
        [⟨"a1", .str "41°30'0.0\"N 93°30'0.0\"W", none, none⟩]) :=
  claim9_backfill_readonly _ _ _ rfl (Or.inl rfl)

/-- C7: under valid bounding-box parameters the returned page reports
`limit` clamped into [1, 1000] and `offset` clamped to ≥ 0 (the call is
coerced, never rejected), and requesting limit 5000 behaves exactly as
limit 1000, limit 0 exactly as limit 1. -/
theorem claim7_limit_offset_clamped (store : List DBRecord)
    (minLat maxLat minLng maxLng : ℚ) (limit offset : Int)
    (hv : validBounds minLat maxLat minLng maxLng) :
    (∃ p : Page,
      list_collections store minLat maxLat minLng maxLng limit offset =
        .ok p ∧
      p.limit = max 1 (min limit 1000) ∧ p.offset = max 0 offset) ∧
    list_collections store minLat maxLat minLng maxLng 5000 offset =
      list_collections store minLat maxLat minLng maxLng 1000 offset ∧
    list_collections store minLat maxLat minLng maxLng 0 offset =
      list_collections store minLat maxLat minLng maxLng 1 offset := by
  obtain ⟨h1, h2, h3, h4⟩ := hv
  have hn3 : ¬(minLat > maxLat ∨ minLng > maxLng) := by
    push_neg
    exact ⟨h3, h4⟩
  unfold list_collections
  rw [if_neg (not_not_intro h1), if_neg (not_not_intro h2), if_neg hn3]
  refine ⟨⟨_, rfl, rfl, rfl⟩, ?_, ?_⟩ <;> simp +decide [min_def, max_def]

/-- C7, witness: at bounds [0,1]×[0,1] with limit 5 and offset -3 the
page reports limit 5 and offset 0, and the two behaves-as equalities
hold. -/
theorem claim7_limit_offset_clamped_witness :
    (∃ p : Page, list_collections [] 0 1 0 1 5 (-3) = .ok p ∧
      p.limit = max 1 (min 5 1000) ∧ p.offset = max 0 (-3)) ∧
    list_collections [] 0 1 0 1 5000 (-3) =
      list_collections [] 0 1 0 1 1000 (-3) ∧
    list_collections [] 0 1 0 1 0 (-3) = list_collections [] 0 1 0 1 1 (-3) :=
  claim7_limit_offset_clamped [] 0 1 0 1 5 (-3)
    (by norm_num [validBounds])

/-- C8: `list_collections` answers HTTP 400 exactly when a latitude bound
leaves [-90, 90], a longitude bound leaves [-180, 180], or a minimum
exceeds its maximum; and in every such case the result is the same
whatever the store holds — the query never reaches it. -/
theorem claim8_bbox_validation (store : List DBRecord)
    (minLat maxLat minLng maxLng : ℚ) (limit offset : Int) :
    (list_collections store minLat maxLat minLng maxLng limit offset =
        .error 400 ↔
      ¬(-90 ≤ minLat ∧ minLat ≤ 90 ∧ -90 ≤ maxLat ∧ maxLat ≤ 90) ∨
      ¬(-180 ≤ minLng ∧ minLng ≤ 180 ∧ -180 ≤ maxLng ∧ maxLng ≤ 180) ∨
      minLat > maxLat ∨ minLng > maxLng) ∧
    ((¬(-90 ≤ minLat ∧ minLat ≤ 90 ∧ -90 ≤ maxLat ∧ maxLat ≤ 90) ∨
      ¬(-180 ≤ minLng ∧ minLng ≤ 180 ∧ -180 ≤ maxLng ∧ maxLng ≤ 180) ∨
      minLat > maxLat ∨ minLng > maxLng) →
      ∀ store' : List DBRecord,
        list_collections store minLat maxLat minLng maxLng limit offset =
          list_collections store' minLat maxLat minLng maxLng limit offset) := by
  constructor
  · unfold list_collections
    by_cases hA : -90 ≤ minLat ∧ minLat ≤ 90 ∧ -90 ≤ maxLat ∧ maxLat ≤ 90
    · rw [if_neg (not_not_intro hA)]
      by_cases hB : -180 ≤ minLng ∧ minLng ≤ 180 ∧ -180 ≤ maxLng ∧ maxLng ≤ 180
      · rw [if_neg (not_not_intro hB)]
        by_cases hC : minLat > maxLat ∨ minLng > maxLng
        · rw [if_pos hC]
          exact iff_of_true rfl (Or.inr (Or.inr hC))
        · rw [if_neg hC]
          refine iff_of_false (by simp) ?_
          rintro (h | h | h)
          · exact h hA
          · exact h hB
          · exact hC h
      · rw [if_pos hB]
        exact iff_of_true rfl (Or.inr (Or.inl hB))
    · rw [if_pos hA]
      exact iff_of_true rfl (Or.inl hA)
  · intro h store'
    unfold list_collections
    by_cases hA : -90 ≤ minLat ∧ minLat ≤ 90 ∧ -90 ≤ maxLat ∧ maxLat ≤ 90
    · by_cases hB : -180 ≤ minLng ∧ minLng ≤ 180 ∧ -180 ≤ maxLng ∧ maxLng ≤ 180
      · by_cases hC : minLat > maxLat ∨ minLng > maxLng
        · simp only [if_neg (not_not_intro hA), if_neg (not_not_intro hB),
            if_pos hC]
        · exfalso
          rcases h with h | h | h
          · exact h hA
          · exact h hB
          · exact hC h
      · simp only [if_neg (not_not_intro hA), if_pos hB]
    · simp only [if_pos hA]

/-- C8, witness: minLat 10 with maxLat 5 (all bounds in range) is
rejected with the validation error. -/
theorem claim8_bbox_validation_witness :
    list_collections [] 10 5 (-10) 10 200 0 = .error 400 :=
  (claim8_bbox_validation [] 10 5 (-10) 10 200 0).1.mpr
    (Or.inr (Or.inr (Or.inl (by norm_num))))

end PlantTracker
